import Mathlib

/-!
Verification of the SecurityCenter 5 API wrapper
(`src/tenable/securitycenter/securitycenter.py`) against its
natural-language specification.

The Python module is shallowly embedded below: JSON documents become the
inductive `JVal`, HTTP response bodies become `Body`, raised exceptions
become `Except` errors, and the pagination `while` loop of `analysis`
becomes a fuel-indexed recursion that also records the request bodies it
sends and whether the loop ran to completion within the given fuel.
-/

namespace PyTenableSC

/-- A minimal model of a parsed JSON value, as produced by `response.json()`.
Only the constructors the client ever inspects are needed. -/
inductive JVal where
  | null
  | bool (b : Bool)
  | int (n : Int)
  | str (s : String)
  | obj (fields : List (String × JVal))

/-- Python truthiness of a JSON value, used by `if d['error_code']:`. -/
def truthy : JVal → Bool
  | .null => false
  | .bool b => b
  | .int n => decide (n ≠ 0)
  | .str s => decide (s ≠ "")
  | .obj fields => !fields.isEmpty

/-- First-match association-list lookup (Python dict keys are unique, so
first-match agrees with dict indexing). -/
def jlookup : List (String × JVal) → String → Option JVal
  | [], _ => none
  | (k, v) :: rest, key => if k = key then some v else jlookup rest key

/-- `d[key]` on a parsed JSON value: `none` models the `KeyError` raised on a
missing key of an object, and also the `TypeError` raised when `d` is not an
object at all; neither is a `ValueError`, so neither is caught by
`_resp_error_check`. -/
def jget : JVal → String → Option JVal
  | .obj fields, key => jlookup fields key
  | _, _ => none

/-- The body of an HTTP response as seen through `response.json()`:
either it fails to parse (raising `ValueError`) or it parses to a `JVal`. -/
inductive Body where
  | nonJson
  | json (d : JVal)

/-- An HTTP response; the client only ever inspects the parsed body. -/
structure Response where
  body : Body

/-- Exceptions that can escape `_resp_error_check`.  `apiError` embeds
`APIError(d['error_code'], d['error_msg'])` from `tenable.base` (modelled
from the spec: `tenable.base` is not in `src/`; the spec lists `APIError`
as its own error kind that propagates to the caller, so it is not a
`ValueError` and is not swallowed by the `except ValueError` clause).
`lookupError key` embeds the `KeyError`/`TypeError` raised by `d[key]`. -/
inductive CheckErr where
  | apiError (code msg : JVal)
  | lookupError (key : String)

/-- `SecurityCenter._resp_error_check` (lines 54-61): parse the body as
JSON; a parse failure (`ValueError`) is caught and the response is passed
through; otherwise `d['error_code']` is read (raising a lookup error if
absent), and if truthy an `APIError` carrying `d['error_code']` and
`d['error_msg']` is raised (reading `d['error_msg']` can itself raise a
lookup error); a falsy `error_code` passes the response through. -/
def respErrorCheck (r : Response) : Except CheckErr Response :=
  match r.body with
  | .nonJson => .ok r
  | .json d =>
    match jget d "error_code" with
    | none => .error (.lookupError "error_code")
    | some code =>
      if truthy code then
        match jget d "error_msg" with
        | none => .error (.lookupError "error_msg")
        | some msg => .error (.apiError code msg)
      else .ok r

/-- The mutable transport state of the underlying HTTP session: its default
headers and its cookie jar, each a list of name/value pairs. -/
structure SessionState where
  headers : List (String × String)
  cookies : List (String × String)
deriving DecidableEq

/-- Modelled from the spec: `APISession._build_session` (in `tenable.base`,
not in `src/`) rebuilds the session's transport state, which "clears
cookies and the auth header". -/
def buildSession : SessionState := { headers := [], cookies := [] }

/-- Whether the session still carries an `X-SecurityCenter` auth header. -/
def hasToken (s : SessionState) : Bool :=
  (s.headers.lookup "X-SecurityCenter").isSome

/-- `SecurityCenter.logout` (lines 79-82), given the response the server
sends to `DELETE token`.  Modelled from the spec: the session applies the
post-response hook `_resp_error_check` to every response, so the `delete`
call raises whatever the hook raises; only when it returns normally does
control reach `self._build_session()`. -/
def logoutRun (deleteResp : Response) : Except CheckErr SessionState :=
  match respErrorCheck deleteResp with
  | .ok _ => .ok buildSession
  | .error e => .error e

/-- The session state after calling `logout()` on state `s`: the rebuilt
(empty) state if `logout` returned normally, and `s` itself if the
`delete` call raised before `_build_session` could run (the raised
exception propagates and the session object is left untouched). -/
def logoutState (s : SessionState) (deleteResp : Response) : SessionState :=
  match logoutRun deleteResp with
  | .ok s2 => s2
  | .error _ => s

/-- The error raised by `SecurityCenter.__init__`.  Modelled from the spec
for the type itself (`ServerError` lives in `tenable.base`, which is not in
`src/`): a single exception class carrying a message.  Both `raise` sites
in `__init__` construct this same class, with different messages. -/
inductive ScErr where
  | serverError (msg : String)
deriving DecidableEq

/-- The identity fields `__init__` stores on success (lines 47-50). -/
structure ScState where
  version : JVal
  build_id : JVal
  license : JVal
  uuid : JVal

/-- `SecurityCenter.__init__` (lines 40-52), abstracted over the outcome of
`self.get('system').json()`: `none` models any exception from the call or
the JSON decode (the bare `except` catches them all), `some d` a parsed
body.  A failing call raises `ServerError('No SecurityCenter Instance at '
+ host)`; a body from which `d['response']['version' | 'buildID' |
'licenseStatus' | 'uuid']` cannot all be read raises
`ServerError('Invalid SecurityCenter Instance')` (the second bare `except`
catches the `KeyError`/`TypeError`); otherwise the four fields are stored. -/
def ctorSC (host : String) (statusResp : Option JVal) : Except ScErr ScState :=
  match statusResp with
  | none => .error (.serverError ("No SecurityCenter Instance at " ++ host))
  | some d =>
    match jget d "response" with
    | none => .error (.serverError "Invalid SecurityCenter Instance")
    | some r =>
      match jget r "version", jget r "buildID",
            jget r "licenseStatus", jget r "uuid" with
      | some v, some b, some l, some u => .ok ⟨v, b, l, u⟩
      | _, _, _, _ => .error (.serverError "Invalid SecurityCenter Instance")

/-- A filter tuple `(field, operator, value)` as passed to `analysis`. -/
structure Filter where
  field : String
  op : String
  value : String
deriving DecidableEq

/-- One entry of the query's filter list, built on line 178:
`{'filterName': f[0], 'operator': f[1], 'value': f[2], 'type': kwargs['type']}`. -/
structure FilterEntry where
  filterName : String
  operator : String
  value : String
  type : String
deriving DecidableEq

/-- The query body built on lines 175-186 and resent (with mutated offsets)
on every pagination iteration. -/
structure Query where
  tool : String
  type : String
  filters : List FilterEntry
  startOffset : Int
  endOffset : Int
deriving DecidableEq

/-- The `page` option: the literal `'all'` or a specific integer page. -/
inductive Page where
  | all
  | num (p : Int)
deriving DecidableEq

/-- Lines 174-186: build the query body from `tool`, `type` and the filter
tuples, and set the initial offsets from the `page`/`page_size` options. -/
def buildQuery (filters : List Filter) (tool qtype : String)
    (page : Page) (pageSize : Int) : Query :=
  { tool := tool
    type := qtype
    filters := filters.map fun f =>
      { filterName := f.field, operator := f.op, value := f.value, type := qtype }
    startOffset := match page with | .all => 0 | .num p => p * pageSize
    endOffset := match page with | .all => pageSize | .num p => (p + 1) * pageSize }

/-- The fields of a page response that the loop reads:
`response['totalRecords']`, `response['endOffset']`, and
`response['results']` (consumed by the default transform). -/
structure PageResponse (α : Type) where
  totalRecords : Int
  endOffset : Int
  results : List α

/-- The output of the configured `page_obj` transform, as the loop sees it
through `isinstance(out, list)` on line 195: either a Python list of items
or some non-list value (e.g. a generator), which is not accumulated. -/
inductive TOut (α : Type) where
  | lst (items : List α)
  | nonList

/-- The internal `return_generator` function (lines 148-150) that replaces
a caller-supplied `generator` option on line 161; it is stored in
`opts['generator']` and never invoked. -/
inductive GenOpt where
  | returnGenerator
deriving DecidableEq

/-- The options dictionary `opts` extracted from `kwargs` on lines 165-169.
`page_obj` absorbs `opts['page_kwargs']` (the transform is called with the
response injected under the `resp` key). -/
structure Opts (α : Type) where
  page : Page
  page_size : Int
  page_obj : PageResponse α → TOut α
  generator : Option GenOpt

/-- Line 195-197: append each element of a list-valued transform output to
the accumulating `output`; discard non-list outputs. -/
def accumStep {α : Type} (output : List α) (out : TOut α) : List α :=
  match out with
  | .lst items => output ++ items
  | .nonList => output

/-- Lines 199-204: the next value of `count`: for `page == 'all'` the
response's `endOffset`, otherwise `total_records` itself. -/
def nextCount {α : Type} (opts : Opts α) (resp : PageResponse α) : Int :=
  match opts.page with
  | .all => resp.endOffset
  | .num _ => resp.totalRecords

/-- Lines 201-202: for `page == 'all'` the query's offsets advance to the
response's `endOffset` and `endOffset + page_size`; for a specific page the
query is left unchanged. -/
def nextQuery {α : Type} (opts : Opts α) (q : Query) (resp : PageResponse α) : Query :=
  match opts.page with
  | .all => { q with startOffset := resp.endOffset
                     endOffset := resp.endOffset + opts.page_size }
  | .num _ => q

/-- The observable outcome of running the `while` loop for a bounded number
of iterations: the accumulated `output`, the sequence of query bodies
POSTed to `analysis` (in order), and whether the loop's condition became
false within the given fuel (`completed = false` means the fuel ran out
with the loop still running, which the source would continue executing). -/
structure RunResult (α : Type) where
  output : List α
  reqs : List Query
  completed : Bool

/-- The `while total_records > count` loop of `analysis` (lines 190-204),
indexed by fuel.  `server` maps each POSTed query body to the page response
the server returns for it. -/
def analysisLoop {α : Type} (server : Query → PageResponse α) (opts : Opts α) :
    Nat → Query → Int → Int → List α → List Query → RunResult α
  | 0, _, count, totalRecords, output, reqs =>
    if totalRecords > count then ⟨output, reqs, false⟩ else ⟨output, reqs, true⟩
  | fuel + 1, q, count, totalRecords, output, reqs =>
    if totalRecords > count then
      let resp := server q
      let out := opts.page_obj resp
      analysisLoop server opts fuel (nextQuery opts q resp) (nextCount opts resp)
        resp.totalRecords (accumStep output out) (reqs ++ [q])
    else ⟨output, reqs, true⟩

/-- Lines 174-204 of `analysis` for a call with no custom `query` body:
build the query, then run the loop with `count = 0` and
`total_records = opts['page_size']` (lines 188-189). -/
def analysisRun {α : Type} (server : Query → PageResponse α) (opts : Opts α)
    (filters : List Filter) (tool qtype : String) (fuel : Nat) : RunResult α :=
  analysisLoop server opts fuel
    (buildQuery filters tool qtype opts.page opts.page_size) 0 opts.page_size [] []

/-- Lines 205-206: return the accumulated list if non-empty, else fall off
the end of the function (Python returns `None`). -/
def finalize {α : Type} (output : List α) : Option (List α) :=
  if output.length > 0 then some output else none

/-- The full observable behaviour of one `analysis` call: the returned
value (`none` models Python's implicit `None`), the POSTed query bodies,
and whether the loop completed within the fuel. -/
def analysis {α : Type} (server : Query → PageResponse α) (opts : Opts α)
    (filters : List Filter) (tool qtype : String) (fuel : Nat) :
    Option (List α) × List Query × Bool :=
  let r := analysisRun server opts filters tool qtype fuel
  (finalize r.output, r.reqs, r.completed)

/-- Lines 155-169: apply the defaults, replace a caller-supplied
`generator` keyword by the internal `return_generator` function (line 161),
and move the recognized options — `generator` among them — out of `kwargs`
into `opts`, so that `generator` never reaches the request body.
`generatorKw` records whether the caller passed the `generator` keyword. -/
def analysisCall {α : Type} (server : Query → PageResponse α)
    (page : Page) (pageSize : Int) (pageObj : PageResponse α → TOut α)
    (generatorKw : Bool) (filters : List Filter) (tool qtype : String)
    (fuel : Nat) : Option (List α) × List Query × Bool :=
  let opts : Opts α :=
    { page := page, page_size := pageSize, page_obj := pageObj
      generator := if generatorKw then some .returnGenerator else none }
  analysis server opts filters tool qtype fuel

/-! ### Concrete fixtures used by counterexamples and witnesses -/

/-- A session state holding the auth header and a cookie left by `login`. -/
def s0 : SessionState :=
  { headers := [("X-SecurityCenter", "abc123")], cookies := [("TNS_SESSIONID", "deadbeef")] }

/-- A response whose JSON body carries a truthy `error_code` and an
`error_msg`, the application-level failure shape. -/
def r1 : Response :=
  { body := .json (.obj [("error_code", .int 1), ("error_msg", .str "bad")]) }

/-- A response whose JSON body is a plain success envelope with no
`error_code` field at all. -/
def r2 : Response :=
  { body := .json (.obj [("response", .obj [])]) }

/-- A well-formed `system` status body. -/
def rGood : JVal :=
  .obj [("version", .str "5.7.0"), ("buildID", .str "123"),
        ("licenseStatus", .str "Valid"), ("uuid", .str "u-1")]

/-- The status body wrapped in the `response` envelope. -/
def dGood : JVal := .obj [("response", rGood)]

/-- A server used to exercise the pagination loop on a fixed data set:
2500 total records, `endOffset` echoed back from the request, and each page
returning `page_size` (or the remainder) items. -/
def server2500 (q : Query) : PageResponse Unit :=
  { totalRecords := 2500
    endOffset := q.endOffset
    results := List.replicate (min 1000 (2500 - q.startOffset)).toNat () }

/-- The default options of an `analysis` call: `page='all'`,
`page_size=1000`, `page_obj=return_results`, no `generator`. -/
def opts3 : Opts Unit :=
  { page := .all, page_size := 1000, page_obj := fun r => .lst r.results, generator := none }

/-- A trivial server returning an empty final page, for witnesses. -/
def constServer (_ : Query) : PageResponse Unit :=
  { totalRecords := 0, endOffset := 0, results := [] }

/-- Small witness options: one-record pages with the default transform. -/
def optsW : Opts Unit :=
  { page := .all, page_size := 1, page_obj := fun r => .lst r.results, generator := none }

/-- A small query body for witnesses. -/
def qW : Query :=
  { tool := "sumip", type := "vuln", filters := [], startOffset := 0, endOffset := 1 }

/-! ### Theorems -/

/-- The messages of the two constructor failures can never coincide,
whatever the host: one always starts with an `N`, the other with an `I`. -/
theorem ctorMsgsDiffer (host : String) :
    "No SecurityCenter Instance at " ++ host ≠ "Invalid SecurityCenter Instance" := by
  intro h
  have h2 : ("No SecurityCenter Instance at " ++ host).data.head? =
      "Invalid SecurityCenter Instance".data.head? := by rw [h]
  have h3 : ("No SecurityCenter Instance at ".data ++ host.data).head? =
      "Invalid SecurityCenter Instance".data.head? := h2
  simp [List.head?_append] at h3

/-- C1 (counterexample): the claim says that a JSON body without a truthy
`error_code` passes the response through unchanged with no error raised,
but on the body `{"response": {}}` — which parses as JSON and has no
`error_code` field — `_resp_error_check` raises a `KeyError` from
`d['error_code']`, which the `except ValueError` clause does not catch. -/
theorem c1_counterexample :
    respErrorCheck r2 = .error (.lookupError "error_code") ∧
    respErrorCheck r2 ≠ .ok r2 :=
  ⟨rfl, fun h => Except.noConfusion h⟩

/-- C1 (amended): `_resp_error_check` raises an `APIError` carrying the
body's `error_code` and `error_msg` when the body parses as JSON with a
truthy `error_code` and an `error_msg` present; it passes the response
through unchanged when the body is non-JSON or the `error_code` is falsy;
but a JSON body lacking `error_code` (or lacking `error_msg` when
`error_code` is truthy) raises an uncaught lookup error instead of being
passed through. -/
theorem c1_amended (r : Response) :
    (r.body = .nonJson → respErrorCheck r = .ok r) ∧
    (∀ d code, r.body = .json d → jget d "error_code" = some code → truthy code = false →
      respErrorCheck r = .ok r) ∧
    (∀ d code msg, r.body = .json d → jget d "error_code" = some code → truthy code = true →
      jget d "error_msg" = some msg → respErrorCheck r = .error (.apiError code msg)) ∧
    (∀ d, r.body = .json d → jget d "error_code" = none →
      respErrorCheck r = .error (.lookupError "error_code")) ∧
    (∀ d code, r.body = .json d → jget d "error_code" = some code → truthy code = true →
      jget d "error_msg" = none → respErrorCheck r = .error (.lookupError "error_msg")) := by
  refine ⟨fun h => ?_, fun d code h hc ht => ?_, fun d code msg h hc ht hm => ?_,
    fun d h hc => ?_, fun d code h hc ht hm => ?_⟩ <;>
    (unfold respErrorCheck; rw [h]) <;> simp [*]

/-- C1 (witness for the amended theorem): on the body
`{"error_code": 1, "error_msg": "bad"}` the check raises an `APIError`
carrying code `1` and message `"bad"`. -/
theorem c1_witness :
    respErrorCheck r1 = .error (.apiError (.int 1) (.str "bad")) :=
  (c1_amended r1).2.2.1 (.obj [("error_code", .int 1), ("error_msg", .str "bad")])
    (.int 1) (.str "bad") rfl rfl rfl rfl

/-- C2 (counterexample): the claim says the session's header/cookie state
no longer contains the token after every `logout()` call, but when the
DELETE response's JSON body carries a truthy `error_code`, the hook raises
an `APIError` out of `self.delete('token')` and `self._build_session()` is
never reached: the session keeps its `X-SecurityCenter` header. -/
theorem c2_counterexample :
    logoutState s0 r1 = s0 ∧ hasToken (logoutState s0 r1) = true :=
  ⟨rfl, rfl⟩

/-- C2 (amended): when `logout()` returns normally (the DELETE response
passes the error check), the rebuilt session carries no auth header and no
cookies; but when the error check raises on the DELETE response, the raise
propagates before `_build_session()` runs and the session state is left
untouched. -/
theorem c2_amended (s : SessionState) (r : Response) :
    (∀ s2, logoutRun r = .ok s2 → s2 = buildSession ∧ hasToken s2 = false ∧ s2.cookies = []) ∧
    (∀ e, respErrorCheck r = .error e → logoutState s r = s) := by
  constructor
  · intro s2 h
    unfold logoutRun at h
    cases hc : respErrorCheck r <;> rw [hc] at h <;> simp at h
    rw [← h]
    exact ⟨rfl, rfl, rfl⟩
  · intro e h
    unfold logoutState logoutRun
    rw [h]

/-- C2 (witness for the amended theorem): a `logout()` whose DELETE
response is non-JSON (passing the error check) rebuilds the session with
no token and no cookies. -/
theorem c2_witness :
    buildSession = buildSession ∧ hasToken buildSession = false ∧ buildSession.cookies = [] :=
  (c2_amended s0 { body := .nonJson }).1 buildSession rfl

/-- C8: a failing status call makes the constructor fail with an error
naming the target host; a body whose `response` envelope lacks any of
`version`, `buildID`, `licenseStatus`, `uuid` (or lacks the envelope)
makes it fail with the distinct `Invalid SecurityCenter Instance` error;
and on a well-formed body the four fields are stored as client state. -/
theorem c8_ctor (host : String) (d : JVal) :
    ctorSC host none = .error (.serverError ("No SecurityCenter Instance at " ++ host)) ∧
    (jget d "response" = none →
      ctorSC host (some d) = .error (.serverError "Invalid SecurityCenter Instance")) ∧
    (∀ r, jget d "response" = some r →
      (jget r "version" = none ∨ jget r "buildID" = none ∨
       jget r "licenseStatus" = none ∨ jget r "uuid" = none) →
      ctorSC host (some d) = .error (.serverError "Invalid SecurityCenter Instance")) ∧
    (∀ r v b l u, jget d "response" = some r → jget r "version" = some v →
      jget r "buildID" = some b → jget r "licenseStatus" = some l →
      jget r "uuid" = some u → ctorSC host (some d) = .ok ⟨v, b, l, u⟩) ∧
    ScErr.serverError ("No SecurityCenter Instance at " ++ host) ≠
      ScErr.serverError "Invalid SecurityCenter Instance" := by
  refine ⟨rfl, ?_, ?_, ?_, by simpa using ctorMsgsDiffer host⟩
  · intro h
    simp [ctorSC, h]
  · intro r hr hmiss
    rcases h1 : jget r "version" with _ | v <;>
      rcases h2 : jget r "buildID" with _ | b <;>
        rcases h3 : jget r "licenseStatus" with _ | l <;>
          rcases h4 : jget r "uuid" with _ | u <;> simp_all [ctorSC]
  · intro r v b l u hr hv hb hl hu
    simp [ctorSC, hr, hv, hb, hl, hu]

/-- C8 (witness): a well-formed status body yields a client storing the
four identity fields, and a dead host yields the host-naming error. -/
theorem c8_witness :
    ctorSC "sc.example.com" (some dGood) =
      .ok ⟨.str "5.7.0", .str "123", .str "Valid", .str "u-1"⟩ ∧
    ctorSC "sc.example.com" none =
      .error (.serverError "No SecurityCenter Instance at sc.example.com") :=
  ⟨(c8_ctor "sc.example.com" dGood).2.2.2.1 rGood (.str "5.7.0") (.str "123")
      (.str "Valid") (.str "u-1") rfl rfl rfl rfl rfl,
    (c8_ctor "sc.example.com" dGood).1⟩

/-- Once `total_records > count` fails, the loop exits at once with the
state it has, whatever fuel remains. -/
theorem analysisLoop_done {α : Type} (server : Query → PageResponse α) (opts : Opts α)
    (fuel : Nat) (q : Query) (count totalRecords : Int) (output : List α)
    (reqs : List Query) (h : ¬totalRecords > count) :
    analysisLoop server opts fuel q count totalRecords output reqs =
      ⟨output, reqs, true⟩ := by
  cases fuel <;> simp [analysisLoop, h]

/-- The loop never forgets a request it has already issued: the request log
only grows. -/
theorem analysisLoop_reqs_le {α : Type} (server : Query → PageResponse α) (opts : Opts α)
    (fuel : Nat) : ∀ (q : Query) (count totalRecords : Int) (output : List α)
      (reqs : List Query),
    reqs.length ≤ (analysisLoop server opts fuel q count totalRecords output reqs).reqs.length := by
  induction fuel with
  | zero =>
    intro q count totalRecords output reqs
    by_cases h : totalRecords > count <;> simp [analysisLoop, h]
  | succ n ih =>
    intro q count totalRecords output reqs
    by_cases h : totalRecords > count
    · calc reqs.length ≤ (reqs ++ [q]).length := by simp
        _ ≤ _ := by simpa [analysisLoop, h] using ih _ _ _ _ (reqs ++ [q])
    · simp [analysisLoop, h]

/-- The loop never reads `opts['generator']`: runs under options differing
only in that field coincide. -/
theorem analysisLoop_generator_irrelevant {α : Type} (server : Query → PageResponse α)
    (page : Page) (pageSize : Int) (pageObj : PageResponse α → TOut α)
    (g g' : Option GenOpt) (fuel : Nat) :
    ∀ (q : Query) (count totalRecords : Int) (output : List α) (reqs : List Query),
    analysisLoop server ⟨page, pageSize, pageObj, g⟩ fuel q count totalRecords output reqs =
      analysisLoop server ⟨page, pageSize, pageObj, g'⟩ fuel q count totalRecords output reqs := by
  induction fuel with
  | zero => intro q count totalRecords output reqs; rfl
  | succ n ih =>
    intro q count totalRecords output reqs
    by_cases h : totalRecords > count <;>
      simp only [analysisLoop, h, if_true, if_false, reduceIte, nextQuery, nextCount]
    exact ih _ _ _ _ _

/-- C3: with `page='all'`, `page_size=1000` and a server reporting
`totalRecords=2500` (echoing back each request's `endOffset` and returning
`page_size`-or-remainder items per page), `analysis` issues exactly 3 POST
requests with offset pairs (0,1000), (1000,2000), (2000,3000), the loop
completes, and the accumulated output has length 2500. -/
theorem c3_pagination :
    (analysisRun server2500 opts3 [] "sumip" "vuln" 10).completed = true ∧
    (analysisRun server2500 opts3 [] "sumip" "vuln" 10).reqs.map
        (fun q => (q.startOffset, q.endOffset)) = [(0, 1000), (1000, 2000), (2000, 3000)] ∧
    (analysisRun server2500 opts3 [] "sumip" "vuln" 10).output.length = 2500 := by
  have h : analysisRun server2500 opts3 [] "sumip" "vuln" 10 =
      ⟨List.replicate 1000 () ++ (List.replicate 1000 () ++ List.replicate 500 ()),
       [⟨"sumip", "vuln", [], 0, 1000⟩, ⟨"sumip", "vuln", [], 1000, 2000⟩,
        ⟨"sumip", "vuln", [], 2000, 3000⟩], true⟩ := by
    norm_num [analysisRun, analysisLoop, buildQuery, server2500, opts3, nextQuery,
      nextCount, accumStep, min_def]
    decide
  rw [h]
  refine ⟨rfl, rfl, ?_⟩
  simp only [List.length_append, List.length_replicate]

/-- C4: for a specific integer page `p` with positive `page_size` `s`, the
loop issues exactly one POST whose body has `startOffset = p*s` and
`endOffset = (p+1)*s`, and terminates after that single iteration,
whatever `totalRecords` any server reports. -/
theorem c4_single_page {α : Type} (server : Query → PageResponse α)
    (pageObj : PageResponse α → TOut α) (g : Option GenOpt) (filters : List Filter)
    (tool qtype : String) (p s : Int) (fuel : Nat) (hs : 0 < s) (hf : 1 ≤ fuel) :
    (analysisRun server ⟨.num p, s, pageObj, g⟩ filters tool qtype fuel).completed = true ∧
    (analysisRun server ⟨.num p, s, pageObj, g⟩ filters tool qtype fuel).reqs.map
        (fun q => (q.startOffset, q.endOffset)) = [(p * s, (p + 1) * s)] := by
  obtain ⟨f, rfl⟩ : ∃ f, fuel = f + 1 := ⟨fuel - 1, by omega⟩
  have hq : analysisRun server ⟨.num p, s, pageObj, g⟩ filters tool qtype (f + 1) =
      ⟨accumStep [] (pageObj (server (buildQuery filters tool qtype (.num p) s))),
       [buildQuery filters tool qtype (.num p) s], true⟩ := by
    unfold analysisRun
    rw [show analysisLoop server ⟨.num p, s, pageObj, g⟩ (f + 1)
        (buildQuery filters tool qtype (.num p) s) 0 s [] [] =
        analysisLoop server ⟨.num p, s, pageObj, g⟩ f
          (buildQuery filters tool qtype (.num p) s)
          (server (buildQuery filters tool qtype (.num p) s)).totalRecords
          (server (buildQuery filters tool qtype (.num p) s)).totalRecords
          (accumStep [] (pageObj (server (buildQuery filters tool qtype (.num p) s))))
          ([] ++ [buildQuery filters tool qtype (.num p) s]) from by
      simp [analysisLoop, hs, nextQuery, nextCount]]
    rw [analysisLoop_done _ _ _ _ _ _ _ _ (lt_irrefl _)]
    simp
  rw [hq]
  refine ⟨rfl, ?_⟩
  simp [buildQuery]

/-- C4 (witness): with `page=2`, `page_size=500` against a concrete server,
exactly one request with offsets (1000, 1500) is issued and the loop
completes. -/
theorem c4_witness :
    (analysisRun (fun _ => constServer qW) ⟨.num 2, 500, optsW.page_obj, none⟩
        [] "sumip" "vuln" 1).completed = true ∧
    (analysisRun (fun _ => constServer qW) ⟨.num 2, 500, optsW.page_obj, none⟩
        [] "sumip" "vuln" 1).reqs.map (fun q => (q.startOffset, q.endOffset)) =
      [(1000, 1500)] := by
  have h := c4_single_page (fun _ => constServer qW) optsW.page_obj none [] "sumip" "vuln"
    2 500 1 (by decide) (by decide)
  simpa using h

/-- C5: without a custom query body, the built query's filter list has one
entry per input tuple, in input order, each entry carrying the tuple's
field, operator and value together with the single configured query type. -/
theorem c5_filters (filters : List Filter) (tool qtype : String) (page : Page)
    (pageSize : Int) (i : Nat) (h : i < filters.length) :
    (buildQuery filters tool qtype page pageSize).filters.length = filters.length ∧
    (buildQuery filters tool qtype page pageSize).filters.get
        ⟨i, by simpa [buildQuery] using h⟩ =
      { filterName := (filters.get ⟨i, h⟩).field
        operator := (filters.get ⟨i, h⟩).op
        value := (filters.get ⟨i, h⟩).value
        type := qtype } := by
  refine ⟨by simp [buildQuery], ?_⟩
  simp [buildQuery, List.get_eq_getElem, List.getElem_map]

/-- C5 (witness): the single filter tuple `('ip','=','10.10.0.0/16')`
becomes the single entry `{filterName:'ip', operator:'=',
value:'10.10.0.0/16', type:'vuln'}`. -/
theorem c5_witness :
    (buildQuery [⟨"ip", "=", "10.10.0.0/16"⟩] "sumip" "vuln" .all 1000).filters.length = 1 ∧
    (buildQuery [⟨"ip", "=", "10.10.0.0/16"⟩] "sumip" "vuln" .all 1000).filters.get
        ⟨0, by simp [buildQuery]⟩ =
      { filterName := "ip", operator := "=", value := "10.10.0.0/16", type := "vuln" } :=
  c5_filters [⟨"ip", "=", "10.10.0.0/16"⟩] "sumip" "vuln" .all 1000 0 (by decide)

/-- C6: in an iteration the loop actually executes, a list-valued transform
output has each of its elements appended in order to the accumulator
(`output ++ items`), while a non-list output leaves the accumulator
untouched; either way the request is logged and the loop continues from
the advanced state. -/
theorem c6_accumulate {α : Type} (server : Query → PageResponse α) (opts : Opts α)
    (fuel : Nat) (q : Query) (count totalRecords : Int) (output : List α)
    (reqs : List Query) (h : totalRecords > count) :
    (∀ items, opts.page_obj (server q) = .lst items →
      analysisLoop server opts (fuel + 1) q count totalRecords output reqs =
        analysisLoop server opts fuel (nextQuery opts q (server q))
          (nextCount opts (server q)) (server q).totalRecords
          (output ++ items) (reqs ++ [q])) ∧
    (opts.page_obj (server q) = .nonList →
      analysisLoop server opts (fuel + 1) q count totalRecords output reqs =
        analysisLoop server opts fuel (nextQuery opts q (server q))
          (nextCount opts (server q)) (server q).totalRecords
          output (reqs ++ [q])) := by
  constructor
  · intro items hout
    simp [analysisLoop, h, accumStep, hout]
  · intro hout
    simp [analysisLoop, h, accumStep, hout]

/-- C6 (witness): with the default list-returning transform on an empty
final page, the iteration appends the (empty) element list and logs the
request. -/
theorem c6_witness :
    analysisLoop constServer optsW 1 qW 0 1 [] [] =
      analysisLoop constServer optsW 0 (nextQuery optsW qW (constServer qW))
        (nextCount optsW (constServer qW)) (constServer qW).totalRecords
        ([] ++ []) ([] ++ [qW]) :=
  (c6_accumulate constServer optsW 0 qW 0 1 [] [] (by decide)).1 [] rfl

/-- C7: `analysis` returns the accumulated list exactly when it is
non-empty and returns `None` exactly when it is empty; no run can return
an empty list. -/
theorem c7_return {α : Type} (server : Query → PageResponse α) (opts : Opts α)
    (filters : List Filter) (tool qtype : String) (fuel : Nat) :
    (∀ l, (analysis server opts filters tool qtype fuel).1 = some l → l ≠ []) ∧
    ((analysis server opts filters tool qtype fuel).1 = none ↔
      (analysisRun server opts filters tool qtype fuel).output = []) ∧
    ((analysisRun server opts filters tool qtype fuel).output ≠ [] →
      (analysis server opts filters tool qtype fuel).1 =
        some (analysisRun server opts filters tool qtype fuel).output) := by
  have hfin : (analysis server opts filters tool qtype fuel).1 =
      finalize (analysisRun server opts filters tool qtype fuel).output := rfl
  by_cases h : (analysisRun server opts filters tool qtype fuel).output.length > 0
  · have hsome : finalize (analysisRun server opts filters tool qtype fuel).output =
        some (analysisRun server opts filters tool qtype fuel).output := by
      simp [finalize, h]
    refine ⟨?_, ?_, ?_⟩
    · intro l hl
      rw [hfin, hsome] at hl
      injection hl with e
      rw [← e]
      exact List.ne_nil_of_length_pos h
    · rw [hfin, hsome]
      constructor
      · intro hc
        cases hc
      · intro he
        rw [he] at h
        simp at h
    · intro _
      rw [hfin, hsome]
  · have h0 : (analysisRun server opts filters tool qtype fuel).output = [] :=
      List.length_eq_zero.mp (by omega)
    have hnone : finalize (analysisRun server opts filters tool qtype fuel).output = none := by
      simp [finalize, h]
    refine ⟨?_, ?_, ?_⟩
    · intro l hl
      rw [hfin, hnone] at hl
      cases hl
    · rw [hfin, hnone]
      simp [h0]
    · intro hne
      exact absurd h0 hne

/-- C7 (witness): a run that accumulates nothing returns `None`. -/
theorem c7_witness :
    (analysis constServer optsW [] "sumip" "vuln" 1).1 = none :=
  ((c7_return constServer optsW [] "sumip" "vuln" 1).2.1).mpr rfl

/-- C9: whenever `page_size` is positive (the default is 1000), the loop's
condition `total_records > count` starts as `page_size > 0`, so at least
one POST is always issued — whatever totals the server later reports. -/
theorem c9_first_request {α : Type} (server : Query → PageResponse α) (opts : Opts α)
    (filters : List Filter) (tool qtype : String) (fuel : Nat)
    (hs : 0 < opts.page_size) (hf : 1 ≤ fuel) :
    1 ≤ (analysisRun server opts filters tool qtype fuel).reqs.length := by
  obtain ⟨f, rfl⟩ : ∃ f, fuel = f + 1 := ⟨fuel - 1, by omega⟩
  unfold analysisRun
  rw [show analysisLoop server opts (f + 1)
      (buildQuery filters tool qtype opts.page opts.page_size) 0 opts.page_size [] [] =
      analysisLoop server opts f
        (nextQuery opts (buildQuery filters tool qtype opts.page opts.page_size)
          (server (buildQuery filters tool qtype opts.page opts.page_size)))
        (nextCount opts (server (buildQuery filters tool qtype opts.page opts.page_size)))
        (server (buildQuery filters tool qtype opts.page opts.page_size)).totalRecords
        (accumStep []
          (opts.page_obj (server (buildQuery filters tool qtype opts.page opts.page_size))))
        ([] ++ [buildQuery filters tool qtype opts.page opts.page_size]) from by
    simp [analysisLoop, hs]]
  calc 1 = ([] ++ [buildQuery filters tool qtype opts.page opts.page_size]).length := by simp
    _ ≤ _ := analysisLoop_reqs_le _ _ _ _ _ _ _ _

/-- C9 (witness): even against a server reporting `totalRecords = 0`, a
call with the default positive `page_size` issues one request. -/
theorem c9_witness :
    1 ≤ (analysisRun constServer optsW [] "sumip" "vuln" 1).reqs.length :=
  c9_first_request constServer optsW [] "sumip" "vuln" 1 (by decide) (by decide)

/-- C10: passing the `generator` keyword changes nothing observable: the
returned value, the request bodies POSTed, and the completion status all
coincide with the same call made without it — the option is moved out of
the request body into `opts` and never invoked. -/
theorem c10_generator_noop {α : Type} (server : Query → PageResponse α) (page : Page)
    (pageSize : Int) (pageObj : PageResponse α → TOut α) (filters : List Filter)
    (tool qtype : String) (fuel : Nat) :
    analysisCall server page pageSize pageObj true filters tool qtype fuel =
      analysisCall server page pageSize pageObj false filters tool qtype fuel := by
  have h := analysisLoop_generator_irrelevant server page pageSize pageObj
    (some .returnGenerator) none fuel (buildQuery filters tool qtype page pageSize)
    0 pageSize [] []
  exact congrArg (fun r => (finalize r.output, r.reqs, r.completed)) h

end PyTenableSC
